import Mathlib

/-!
Verification of the dotnet-outdated invocation module (`src/outdated.rs`).

The module builds an argument vector for the external `dotnet outdated`
tool from a `DotnetOutdatedOptions` value, runs the tool, classifies the
exit status into an `IndicatedUpdateRequirement` verdict, and deserializes
the JSON report the tool wrote into a `DotnetOutdatedData` structure,
with field-path-annotated deserialization errors.

The embedding below translates the Rust source directly: pure data types
become Lean structures and inductives, the argument construction becomes
`buildArgs`, and the effectful `outdated` function becomes a pure function
over explicit collaborator inputs (the temporary-file path computation,
the process runner, and the report-file reader/parser).
-/

namespace DotnetParser

/-- Embeds `enum VersionLock { None, Major, Minor }` from the source. -/
inductive VersionLock where
  | None
  | Major
  | Minor
deriving DecidableEq

/-- Embeds `impl Default for VersionLock`: the default is `VersionLock::None`. -/
def VersionLock.default : VersionLock := VersionLock.None

/-- Embeds `impl Display for VersionLock` (the textual rendering used in the
argument vector). -/
def VersionLock.display : VersionLock → String
  | VersionLock.None => "None"
  | VersionLock.Major => "Major"
  | VersionLock.Minor => "Minor"

/-- Embeds `enum PreRelease { Never, Auto, Always }` from the source. -/
inductive PreRelease where
  | Never
  | Auto
  | Always
deriving DecidableEq

/-- Embeds `impl Default for PreRelease`: the default is `PreRelease::Auto`. -/
def PreRelease.default : PreRelease := PreRelease.Auto

/-- Embeds `impl Display for PreRelease` (the textual rendering used in the
argument vector). -/
def PreRelease.display : PreRelease → String
  | PreRelease.Never => "Never"
  | PreRelease.Auto => "Auto"
  | PreRelease.Always => "Always"

/-- Embeds `struct DotnetOutdatedOptions`. Paths (`PathBuf`) are modelled as
strings; `u64` is modelled as `Nat` (the decimal rendering agrees). -/
structure DotnetOutdatedOptions where
  include_auto_references : Bool
  pre_release : PreRelease
  «include» : List String
  «exclude» : List String
  transitive : Bool
  transitive_depth : Nat
  version_lock : VersionLock
  input_dir : Option String
deriving DecidableEq

/-- Embeds the `#[derive(Default)]` on `DotnetOutdatedOptions`: every field is
the `Default::default()` of its type (`false` for `bool`, `0` for `u64`,
empty for `Vec`, `None` for `Option`, and the explicit `Default` impls for
the two enums). -/
def DotnetOutdatedOptions.default : DotnetOutdatedOptions :=
  { include_auto_references := false
    pre_release := PreRelease.default
    «include» := []
    «exclude» := []
    transitive := false
    transitive_depth := 0
    version_lock := VersionLock.default
    input_dir := none }

/-- Embeds `enum Severity { Major, Minor, Patch }`. -/
inductive Severity where
  | Major
  | Minor
  | Patch
deriving DecidableEq

/-- Embeds `struct Dependency` (fields `Name`, `ResolvedVersion`,
`LatestVersion`, `UpgradeSeverity` after PascalCase renaming). -/
structure Dependency where
  name : String
  resolved_version : String
  latest_version : String
  upgrade_severity : Severity
deriving DecidableEq

/-- Embeds `struct Framework` (fields `Name`, `Dependencies`). -/
structure Framework where
  name : String
  dependencies : List Dependency
deriving DecidableEq

/-- Embeds `struct Project` (fields `Name`, `FilePath`, `TargetFrameworks`). -/
structure Project where
  name : String
  file_path : String
  target_frameworks : List Framework
deriving DecidableEq

/-- Embeds `struct DotnetOutdatedData` (field `Projects`). -/
structure DotnetOutdatedData where
  projects : List Project
deriving DecidableEq

/-- Embeds `enum IndicatedUpdateRequirement { UpToDate, UpdateRequired }`. -/
inductive IndicatedUpdateRequirement where
  | UpToDate
  | UpdateRequired
deriving DecidableEq

/-- Embeds `impl Display for IndicatedUpdateRequirement`. -/
def IndicatedUpdateRequirement.display : IndicatedUpdateRequirement → String
  | IndicatedUpdateRequirement.UpToDate => "up-to-date"
  | IndicatedUpdateRequirement.UpdateRequired => "update-required"

/-- One decimal digit character; `digitChar (n % 10)` is the digit the `u64`
decimal rendering emits for one position. Out-of-range inputs never occur. -/
def digitChar (n : Nat) : Char :=
  if n = 0 then '0'
  else if n = 1 then '1'
  else if n = 2 then '2'
  else if n = 3 then '3'
  else if n = 4 then '4'
  else if n = 5 then '5'
  else if n = 6 then '6'
  else if n = 7 then '7'
  else if n = 8 then '8'
  else '9'

/-- Accumulates the decimal digits of `n` (most significant first) in front of
`acc`. -/
def natDecimalCore (n : Nat) (acc : List Char) : List Char :=
  if n < 10 then digitChar (n % 10) :: acc
  else natDecimalCore (n / 10) (digitChar (n % 10) :: acc)
termination_by n
decreasing_by exact Nat.div_lt_self (by omega) (by omega)

/-- Embeds the `u64` `Display` rendering used for
`options.transitive_depth.to_string()`: plain decimal digits. -/
def natDecimal (n : Nat) : String :=
  String.mk (natDecimalCore n [])

/-- Embeds the argument-vector construction of `outdated` (the sequence of
`cmd.args(...)` calls, lines 248 to 287 of the source): the subcommand and
mandatory flags, then each conditional or repeated group in source order. -/
def buildArgs (options : DotnetOutdatedOptions) (output_file : String) : List String :=
  let cmd : List String :=
    ["outdated", "--fail-on-updates", "--output", output_file, "--output-format", "json"]
  let cmd := if options.include_auto_references then cmd ++ ["--include-auto-references"] else cmd
  let cmd := cmd ++ ["--pre-release", options.pre_release.display]
  let cmd := if options.«include».isEmpty then cmd
    else options.«include».foldl (fun c i => c ++ ["--include", i]) cmd
  let cmd := if options.«exclude».isEmpty then cmd
    else options.«exclude».foldl (fun c e => c ++ ["--exclude", e]) cmd
  let cmd := if options.transitive then
      cmd ++ ["--transitive", "--transitive-depth", natDecimal options.transitive_depth]
    else cmd
  let cmd := cmd ++ ["--version-lock", options.version_lock.display]
  match options.input_dir with
  | some d => cmd ++ [d]
  | none => cmd

/-- Checks whether a byte sequence is valid UTF-8, following the validation
`std::str::from_utf8` performs (well-formed sequences only: no overlong
encodings, no surrogates, no code points above U+10FFFF). -/
def validUtf8 : List Nat → Bool
  | [] => true
  | b :: rest =>
    if b < 0x80 then validUtf8 rest
    else if 0xC2 ≤ b ∧ b ≤ 0xDF then
      match rest with
      | c1 :: rest2 => decide (0x80 ≤ c1 ∧ c1 ≤ 0xBF) && validUtf8 rest2
      | [] => false
    else if 0xE0 ≤ b ∧ b ≤ 0xEF then
      match rest with
      | c1 :: c2 :: rest2 =>
        (decide (0x80 ≤ c1 ∧ c1 ≤ 0xBF) &&
         decide (0x80 ≤ c2 ∧ c2 ≤ 0xBF) &&
         decide (b ≠ 0xE0 ∨ 0xA0 ≤ c1) &&
         decide (b ≠ 0xED ∨ c1 ≤ 0x9F)) && validUtf8 rest2
      | _ => false
    else if 0xF0 ≤ b ∧ b ≤ 0xF4 then
      match rest with
      | c1 :: c2 :: c3 :: rest2 =>
        (decide (0x80 ≤ c1 ∧ c1 ≤ 0xBF) &&
         decide (0x80 ≤ c2 ∧ c2 ≤ 0xBF) &&
         decide (0x80 ≤ c3 ∧ c3 ≤ 0xBF) &&
         decide (b ≠ 0xF0 ∨ 0x90 ≤ c1) &&
         decide (b ≠ 0xF4 ∨ c1 ≤ 0x8F)) && validUtf8 rest2
      | _ => false
    else false

/-- A JSON value, as produced by the serde_json text parser from the report
file's content. Objects keep their fields in textual order. -/
inductive Json where
  | null
  | bool (b : Bool)
  | num (n : Int)
  | str (s : String)
  | arr (elems : List Json)
  | obj (fields : List (String × Json))

/-- One segment of a serde_path_to_error path: an object field name or a
sequence index. -/
inductive PathSeg where
  | field (name : String)
  | index (i : Nat)
deriving DecidableEq

/-- A deserialization error as produced through serde_path_to_error: the path
of the failing location plus the serde error message. -/
structure DeError where
  path : List PathSeg
  msg : String
deriving DecidableEq

/-- Modelled from the spec: the error kinds of the crate-level `Error` type
(its definition lives outside this module): process/filesystem io errors,
the path-conversion failure, invalid UTF-8 in captured process output, and
path-annotated deserialization failures. -/
inductive Error where
  | pathConversionError
  | ioError (msg : String)
  | utf8Error
  | deserializeError (err : DeError)
deriving DecidableEq

/-- What `cmd.output()` captures from the external process: exit-status
success flag and the raw stdout/stderr byte streams. -/
structure ProcessOutput where
  success : Bool
  stdout : List Nat
  stderr : List Nat

/-- Embeds the derived `Serialize` for `Severity`: a unit enum variant
serializes as its variant-name string. -/
def Severity.serialize : Severity → Json
  | Severity.Major => Json.str "Major"
  | Severity.Minor => Json.str "Minor"
  | Severity.Patch => Json.str "Patch"

/-- Embeds the derived `Serialize` for `Dependency` with
`rename_all = "PascalCase"`. -/
def Dependency.serialize (d : Dependency) : Json :=
  Json.obj
    [("Name", Json.str d.name),
     ("ResolvedVersion", Json.str d.resolved_version),
     ("LatestVersion", Json.str d.latest_version),
     ("UpgradeSeverity", d.upgrade_severity.serialize)]

/-- Embeds the derived `Serialize` for `Framework`. -/
def Framework.serialize (fw : Framework) : Json :=
  Json.obj
    [("Name", Json.str fw.name),
     ("Dependencies", Json.arr (fw.dependencies.map Dependency.serialize))]

/-- Embeds the derived `Serialize` for `Project`. -/
def Project.serialize (pr : Project) : Json :=
  Json.obj
    [("Name", Json.str pr.name),
     ("FilePath", Json.str pr.file_path),
     ("TargetFrameworks", Json.arr (pr.target_frameworks.map Framework.serialize))]

/-- Embeds the derived `Serialize` for `DotnetOutdatedData`. -/
def DotnetOutdatedData.serialize (d : DotnetOutdatedData) : Json :=
  Json.obj [("Projects", Json.arr (d.projects.map Project.serialize))]

/-- First value stored under key `k`, mirroring where a serde map visitor
would first encounter the key. Used only to state properties. -/
def lookupField (fields : List (String × Json)) (k : String) : Option Json :=
  match fields with
  | [] => none
  | (k2, v) :: rest => if k2 = k then some v else lookupField rest k

/-- True when an `Except` computation failed. -/
def isErr {α : Type} : Except DeError α → Bool
  | Except.error _ => true
  | Except.ok _ => false

/-- Embeds the derived `Deserialize` for `Severity`: a string matching one of
the three variant names; anything else is an unknown-variant or
invalid-type error at the current path. -/
def Severity.deserialize (p : List PathSeg) (j : Json) : Except DeError Severity :=
  match j with
  | Json.str "Major" => Except.ok Severity.Major
  | Json.str "Minor" => Except.ok Severity.Minor
  | Json.str "Patch" => Except.ok Severity.Patch
  | Json.str s => Except.error ⟨p, "unknown variant " ++ s⟩
  | _ => Except.error ⟨p, "invalid type: expected variant identifier"⟩

/-- The field loop of the derived `Deserialize` for `Dependency`: visits the
object's entries in order, decoding each known field's value as it is
reached (errors at path `p ++ [field]`), rejecting duplicates, ignoring
unknown keys, and reporting the first missing required field at the end. -/
def Dependency.fieldLoop (p : List PathSeg) :
    List (String × Json) → Option String → Option String → Option String →
    Option Severity → Except DeError Dependency
  | [], some n, some rv, some lv, some us => Except.ok ⟨n, rv, lv, us⟩
  | [], none, _, _, _ => Except.error ⟨p, "missing field Name"⟩
  | [], _, none, _, _ => Except.error ⟨p, "missing field ResolvedVersion"⟩
  | [], _, _, none, _ => Except.error ⟨p, "missing field LatestVersion"⟩
  | [], _, _, _, none => Except.error ⟨p, "missing field UpgradeSeverity"⟩
  | (k, v) :: rest, nAcc, rvAcc, lvAcc, usAcc =>
    if k = "Name" then
      match nAcc with
      | some _ => Except.error ⟨p, "duplicate field Name"⟩
      | none =>
        match v with
        | Json.str s => Dependency.fieldLoop p rest (some s) rvAcc lvAcc usAcc
        | _ => Except.error ⟨p ++ [PathSeg.field "Name"], "invalid type: expected a string"⟩
    else if k = "ResolvedVersion" then
      match rvAcc with
      | some _ => Except.error ⟨p, "duplicate field ResolvedVersion"⟩
      | none =>
        match v with
        | Json.str s => Dependency.fieldLoop p rest nAcc (some s) lvAcc usAcc
        | _ =>
          Except.error ⟨p ++ [PathSeg.field "ResolvedVersion"], "invalid type: expected a string"⟩
    else if k = "LatestVersion" then
      match lvAcc with
      | some _ => Except.error ⟨p, "duplicate field LatestVersion"⟩
      | none =>
        match v with
        | Json.str s => Dependency.fieldLoop p rest nAcc rvAcc (some s) usAcc
        | _ =>
          Except.error ⟨p ++ [PathSeg.field "LatestVersion"], "invalid type: expected a string"⟩
    else if k = "UpgradeSeverity" then
      match usAcc with
      | some _ => Except.error ⟨p, "duplicate field UpgradeSeverity"⟩
      | none =>
        match Severity.deserialize (p ++ [PathSeg.field "UpgradeSeverity"]) v with
        | Except.ok sv => Dependency.fieldLoop p rest nAcc rvAcc lvAcc (some sv)
        | Except.error e => Except.error e
    else Dependency.fieldLoop p rest nAcc rvAcc lvAcc usAcc

/-- Embeds the derived `Deserialize` for `Dependency`: expects a map. -/
def Dependency.deserialize (p : List PathSeg) (j : Json) : Except DeError Dependency :=
  match j with
  | Json.obj fields => Dependency.fieldLoop p fields none none none none
  | _ => Except.error ⟨p, "invalid type: expected struct Dependency"⟩

/-- Deserializes the elements of a JSON sequence in order, the element at
position `i` at path `p ++ [index i]`, stopping at the first error. -/
def deserializeSeq {α : Type} (f : List PathSeg → Json → Except DeError α)
    (p : List PathSeg) : Nat → List Json → Except DeError (List α)
  | _, [] => Except.ok []
  | i, j :: rest =>
    match f (p ++ [PathSeg.index i]) j with
    | Except.error e => Except.error e
    | Except.ok a =>
      match deserializeSeq f p (i + 1) rest with
      | Except.error e => Except.error e
      | Except.ok tl => Except.ok (a :: tl)

/-- The field loop of the derived `Deserialize` for `Framework`. -/
def Framework.fieldLoop (p : List PathSeg) :
    List (String × Json) → Option String → Option (List Dependency) →
    Except DeError Framework
  | [], some n, some deps => Except.ok ⟨n, deps⟩
  | [], none, _ => Except.error ⟨p, "missing field Name"⟩
  | [], _, none => Except.error ⟨p, "missing field Dependencies"⟩
  | (k, v) :: rest, nAcc, depsAcc =>
    if k = "Name" then
      match nAcc with
      | some _ => Except.error ⟨p, "duplicate field Name"⟩
      | none =>
        match v with
        | Json.str s => Framework.fieldLoop p rest (some s) depsAcc
        | _ => Except.error ⟨p ++ [PathSeg.field "Name"], "invalid type: expected a string"⟩
    else if k = "Dependencies" then
      match depsAcc with
      | some _ => Except.error ⟨p, "duplicate field Dependencies"⟩
      | none =>
        match v with
        | Json.arr elems =>
          match deserializeSeq Dependency.deserialize
              (p ++ [PathSeg.field "Dependencies"]) 0 elems with
          | Except.ok deps => Framework.fieldLoop p rest nAcc (some deps)
          | Except.error e => Except.error e
        | _ =>
          Except.error ⟨p ++ [PathSeg.field "Dependencies"], "invalid type: expected a sequence"⟩
    else Framework.fieldLoop p rest nAcc depsAcc

/-- Embeds the derived `Deserialize` for `Framework`: expects a map. -/
def Framework.deserialize (p : List PathSeg) (j : Json) : Except DeError Framework :=
  match j with
  | Json.obj fields => Framework.fieldLoop p fields none none
  | _ => Except.error ⟨p, "invalid type: expected struct Framework"⟩

/-- The field loop of the derived `Deserialize` for `Project`. -/
def Project.fieldLoop (p : List PathSeg) :
    List (String × Json) → Option String → Option String → Option (List Framework) →
    Except DeError Project
  | [], some n, some fp, some tfs => Except.ok ⟨n, fp, tfs⟩
  | [], none, _, _ => Except.error ⟨p, "missing field Name"⟩
  | [], _, none, _ => Except.error ⟨p, "missing field FilePath"⟩
  | [], _, _, none => Except.error ⟨p, "missing field TargetFrameworks"⟩
  | (k, v) :: rest, nAcc, fpAcc, tfsAcc =>
    if k = "Name" then
      match nAcc with
      | some _ => Except.error ⟨p, "duplicate field Name"⟩
      | none =>
        match v with
        | Json.str s => Project.fieldLoop p rest (some s) fpAcc tfsAcc
        | _ => Except.error ⟨p ++ [PathSeg.field "Name"], "invalid type: expected a string"⟩
    else if k = "FilePath" then
      match fpAcc with
      | some _ => Except.error ⟨p, "duplicate field FilePath"⟩
      | none =>
        match v with
        | Json.str s => Project.fieldLoop p rest nAcc (some s) tfsAcc
        | _ => Except.error ⟨p ++ [PathSeg.field "FilePath"], "invalid type: expected a string"⟩
    else if k = "TargetFrameworks" then
      match tfsAcc with
      | some _ => Except.error ⟨p, "duplicate field TargetFrameworks"⟩
      | none =>
        match v with
        | Json.arr elems =>
          match deserializeSeq Framework.deserialize
              (p ++ [PathSeg.field "TargetFrameworks"]) 0 elems with
          | Except.ok tfs => Project.fieldLoop p rest nAcc fpAcc (some tfs)
          | Except.error e => Except.error e
        | _ =>
          Except.error
            ⟨p ++ [PathSeg.field "TargetFrameworks"], "invalid type: expected a sequence"⟩
    else Project.fieldLoop p rest nAcc fpAcc tfsAcc

/-- Embeds the derived `Deserialize` for `Project`: expects a map. -/
def Project.deserialize (p : List PathSeg) (j : Json) : Except DeError Project :=
  match j with
  | Json.obj fields => Project.fieldLoop p fields none none none
  | _ => Except.error ⟨p, "invalid type: expected struct Project"⟩

/-- The field loop of the derived `Deserialize` for `DotnetOutdatedData`. -/
def DotnetOutdatedData.fieldLoop (p : List PathSeg) :
    List (String × Json) → Option (List Project) → Except DeError DotnetOutdatedData
  | [], some prs => Except.ok ⟨prs⟩
  | [], none => Except.error ⟨p, "missing field Projects"⟩
  | (k, v) :: rest, prsAcc =>
    if k = "Projects" then
      match prsAcc with
      | some _ => Except.error ⟨p, "duplicate field Projects"⟩
      | none =>
        match v with
        | Json.arr elems =>
          match deserializeSeq Project.deserialize (p ++ [PathSeg.field "Projects"]) 0 elems with
          | Except.ok prs => DotnetOutdatedData.fieldLoop p rest (some prs)
          | Except.error e => Except.error e
        | _ => Except.error ⟨p ++ [PathSeg.field "Projects"], "invalid type: expected a sequence"⟩
    else DotnetOutdatedData.fieldLoop p rest prsAcc

/-- Embeds the derived `Deserialize` for `DotnetOutdatedData` (the whole
report), reached through `serde_path_to_error::deserialize` at the empty
path. -/
def DotnetOutdatedData.deserialize (p : List PathSeg) (j : Json) :
    Except DeError DotnetOutdatedData :=
  match j with
  | Json.obj fields => DotnetOutdatedData.fieldLoop p fields none
  | _ => Except.error ⟨p, "invalid type: expected struct DotnetOutdatedData"⟩

/-- Embeds `fn outdated` (lines 237 to 315 of the source) over explicit
collaborator inputs. `output_file` is the result of the temporary-directory
creation plus the `to_str` conversion of the report path (`Except.error`
models an io error from `tempfile::tempdir()`, `Except.ok none` a path that
is not valid UTF-8). `run` is the external process (`cmd.output()`) applied
to the constructed argument vector. `read_report` is
`std::fs::read_to_string` composed with the serde_json text parser
(`Except.error` models a read or syntax failure). The tracing macro calls
are pure logging and are dropped; the decode of the captured streams that
the source performs inside the logging block (with `?` propagation) is
kept. -/
def outdated (options : DotnetOutdatedOptions)
    (output_file : Except String (Option String))
    (run : List String → ProcessOutput)
    (read_report : String → Except String Json) :
    Except Error (IndicatedUpdateRequirement × DotnetOutdatedData) :=
  match output_file with
  | Except.error e => Except.error (Error.ioError e)
  | Except.ok none => Except.error Error.pathConversionError
  | Except.ok (some ofile) =>
    let output := run (buildArgs options ofile)
    let logStep : Except Error Unit :=
      if output.success then Except.ok ()
      else if validUtf8 output.stdout = false then Except.error Error.utf8Error
      else if output.stderr ≠ [] ∧ validUtf8 output.stderr = false then
        Except.error Error.utf8Error
      else Except.ok ()
    match logStep with
    | Except.error e => Except.error e
    | Except.ok () =>
      let update_requirement :=
        if output.success then IndicatedUpdateRequirement.UpToDate
        else IndicatedUpdateRequirement.UpdateRequired
      match read_report ofile with
      | Except.error e => Except.error (Error.ioError e)
      | Except.ok j =>
        match DotnetOutdatedData.deserialize [] j with
        | Except.error e => Except.error (Error.deserializeError e)
        | Except.ok data => Except.ok (update_requirement, data)

/-- Number of occurrences of the string `s` in an argument vector. -/
def countOcc (s : String) : List String → Nat
  | [] => 0
  | a :: l => (if a = s then 1 else 0) + countOcc s l

/-- The values paired with each occurrence of `flag` in an argument vector,
scanning left to right and consuming the element right after a flag
occurrence as its value. -/
def flagValues (flag : String) : List String → List String
  | [] => []
  | a :: l =>
    if a = flag then
      match l with
      | [] => []
      | b :: rest => b :: flagValues flag rest
    else flagValues flag l

/-- The flag/value interleaving `[fl, x1, fl, x2, ...]` that the include and
exclude loops of `outdated` append. -/
def pairArgs (fl : String) : List String → List String
  | [] => []
  | i :: rest => fl :: i :: pairArgs fl rest

theorem countOcc_nil (s : String) : countOcc s [] = 0 := rfl

theorem countOcc_cons (s a : String) (l : List String) :
    countOcc s (a :: l) = (if a = s then 1 else 0) + countOcc s l := rfl

theorem countOcc_append (s : String) (l1 l2 : List String) :
    countOcc s (l1 ++ l2) = countOcc s l1 + countOcc s l2 := by
  induction l1 with
  | nil => simp [countOcc]
  | cons a l ih => simp [countOcc, ih]; omega

theorem countOcc_eq_zero (s : String) (l : List String) (h : s ∉ l) :
    countOcc s l = 0 := by
  induction l with
  | nil => rfl
  | cons a l ih =>
    simp only [List.mem_cons, not_or] at h
    have ha : ¬(a = s) := fun he => h.1 he.symm
    simp [countOcc, ha, ih h.2]

theorem not_mem_pairArgs (t fl : String) (xs : List String) (h1 : t ≠ fl)
    (h2 : t ∉ xs) : t ∉ pairArgs fl xs := by
  induction xs with
  | nil => simp [pairArgs]
  | cons i rest ih =>
    simp only [List.mem_cons, not_or] at h2
    simp only [pairArgs, List.mem_cons, not_or]
    exact ⟨h1, h2.1, ih h2.2⟩

theorem countOcc_pairArgs_self (fl : String) (xs : List String) (h : fl ∉ xs) :
    countOcc fl (pairArgs fl xs) = xs.length := by
  induction xs with
  | nil => rfl
  | cons i rest ih =>
    simp only [List.mem_cons, not_or] at h
    have hi : ¬(i = fl) := fun he => h.1 he.symm
    simp [pairArgs, countOcc, hi, ih h.2]
    omega

theorem flagValues_cons_ne (flag a : String) (l : List String) (h : a ≠ flag) :
    flagValues flag (a :: l) = flagValues flag l := by
  rw [flagValues.eq_def]
  simp [h]

theorem flagValues_cons_self (flag b : String) (rest : List String) :
    flagValues flag (flag :: b :: rest) = b :: flagValues flag rest := by
  rw [flagValues.eq_def]
  simp

theorem flagValues_append_of_not_mem (flag : String) (l1 l2 : List String)
    (h : flag ∉ l1) : flagValues flag (l1 ++ l2) = flagValues flag l2 := by
  induction l1 with
  | nil => rfl
  | cons a l ih =>
    simp only [List.mem_cons, not_or] at h
    rw [List.cons_append, flagValues_cons_ne flag a _ (fun he => h.1 he.symm), ih h.2]

theorem flagValues_eq_nil_of_not_mem (flag : String) (l : List String)
    (h : flag ∉ l) : flagValues flag l = [] := by
  have := flagValues_append_of_not_mem flag l [] h
  simpa using this

theorem flagValues_pairArgs (flag : String) (xs l2 : List String) :
    flagValues flag (pairArgs flag xs ++ l2) = xs ++ flagValues flag l2 := by
  induction xs with
  | nil => rfl
  | cons i rest ih =>
    simp only [pairArgs, List.cons_append, flagValues_cons_self, ih]

theorem foldl_pairArgs (fl : String) (xs acc : List String) :
    xs.foldl (fun c i => c ++ [fl, i]) acc = acc ++ pairArgs fl xs := by
  induction xs generalizing acc with
  | nil => simp [pairArgs]
  | cons i rest ih => simp [pairArgs, List.foldl_cons, ih]

/-- The argument vector decomposed into its consecutive groups, in the order
the source appends them. -/
theorem buildArgs_eq (o : DotnetOutdatedOptions) (f : String) :
    buildArgs o f =
      ["outdated", "--fail-on-updates", "--output", f, "--output-format", "json"] ++
      (if o.include_auto_references then ["--include-auto-references"] else []) ++
      ["--pre-release", o.pre_release.display] ++
      pairArgs "--include" o.«include» ++
      pairArgs "--exclude" o.«exclude» ++
      (if o.transitive then
        ["--transitive", "--transitive-depth", natDecimal o.transitive_depth] else []) ++
      ["--version-lock", o.version_lock.display] ++
      (match o.input_dir with | some d => [d] | none => []) := by
  rcases o with ⟨iar, pr, inc, exc, tr, td, vl, idir⟩
  simp only [buildArgs]
  cases inc <;> cases exc <;> cases iar <;> cases tr <;> cases idir <;>
    simp [foldl_pairArgs, pairArgs]

/-- C2: with `transitive = false`, `version_lock = None`, `pre_release = Auto`,
empty include and exclude lists, `include_auto_references = false` and
`input_dir = none`, the constructed argument vector is exactly the
nine-element base vector, for every report path and every depth value. -/
theorem c2_default_scenario_args (f : String) (depth : Nat) :
    buildArgs ⟨false, PreRelease.Auto, [], [], false, depth, VersionLock.None, none⟩ f =
      ["outdated", "--fail-on-updates", "--output", f, "--output-format", "json",
       "--pre-release", "Auto", "--version-lock", "None"] := by
  simp [buildArgs, PreRelease.display, VersionLock.display]

/-- C3 (counterexample): the `Default` implementation of
`DotnetOutdatedOptions` does not set `transitive_depth` to `1`: the derived
`Default` uses `u64::default()`, which is `0` (the `1` is only clap's
`default_value` used during CLI parsing). -/
theorem c3_counterexample : DotnetOutdatedOptions.default.transitive_depth ≠ 1 := by
  decide

/-- C3 (amended): the `Default` implementation of `DotnetOutdatedOptions`
yields `version_lock = None`, `pre_release = Auto`, `transitive = false`,
`transitive_depth = 0`, empty include and exclude lists,
`include_auto_references = false`, and no `input_dir`. -/
theorem c3_default_options :
    DotnetOutdatedOptions.default.version_lock = VersionLock.None ∧
    DotnetOutdatedOptions.default.pre_release = PreRelease.Auto ∧
    DotnetOutdatedOptions.default.transitive = false ∧
    DotnetOutdatedOptions.default.transitive_depth = 0 ∧
    DotnetOutdatedOptions.default.«include» = [] ∧
    DotnetOutdatedOptions.default.«exclude» = [] ∧
    DotnetOutdatedOptions.default.include_auto_references = false ∧
    DotnetOutdatedOptions.default.input_dir = none := by
  refine ⟨rfl, rfl, rfl, rfl, rfl, rfl, rfl, rfl⟩

theorem digitChar_ne_dash (m : Nat) : digitChar m ≠ '-' := by
  unfold digitChar
  repeat' split
  all_goals decide

theorem natDecimalCore_head (n : Nat) :
    ∀ acc, ∃ m l, natDecimalCore n acc = digitChar m :: l := by
  induction n using Nat.strong_induction_on with
  | _ n ih =>
    intro acc
    rw [natDecimalCore]
    by_cases h : n < 10
    · rw [if_pos h]
      exact ⟨n % 10, acc, rfl⟩
    · rw [if_neg h]
      exact ih (n / 10) (Nat.div_lt_self (by omega) (by omega)) _

/-- The decimal rendering of a number starts with a digit, so it never equals
a string starting with a dash (in particular any of the flag strings). -/
theorem natDecimal_ne_flag (n : Nat) (s : String)
    (hs : s.data.head? = some ('-' : Char)) : natDecimal n ≠ s := by
  intro h
  obtain ⟨m, l, hcore⟩ := natDecimalCore_head n []
  have hdata : s.data = digitChar m :: l := by
    rw [← h]
    simp [natDecimal, hcore]
  rw [hdata] at hs
  simp only [List.head?_cons, Option.some.injEq] at hs
  exact digitChar_ne_dash m hs

/-- The rendering of a `PreRelease` value is one of the three variant names. -/
theorem pre_release_display_cases (p : PreRelease) :
    p.display = "Never" ∨ p.display = "Auto" ∨ p.display = "Always" := by
  cases p <;> simp [PreRelease.display]

/-- The rendering of a `VersionLock` value is one of the three variant names. -/
theorem version_lock_display_cases (v : VersionLock) :
    v.display = "None" ∨ v.display = "Major" ∨ v.display = "Minor" := by
  cases v <;> simp [VersionLock.display]

theorem pre_release_display_ne_flag (p : PreRelease) (s : String)
    (hs : s.data.head? = some ('-' : Char)) : p.display ≠ s := by
  rcases pre_release_display_cases p with h | h | h <;> rw [h] <;>
    intro he <;> rw [← he] at hs <;> simp at hs

theorem version_lock_display_ne_flag (v : VersionLock) (s : String)
    (hs : s.data.head? = some ('-' : Char)) : v.display ≠ s := by
  rcases version_lock_display_cases v with h | h | h <;> rw [h] <;>
    intro he <;> rw [← he] at hs <;> simp at hs

/-- The string `s` is not supplied as user data anywhere in the options or the
report path: it is not an include or exclude entry, not the report path, and
not the input directory. Under this non-collision condition an occurrence of
`s` in the argument vector is an occurrence of the flag `s` itself. -/
def avoids (options : DotnetOutdatedOptions) (output_file : String) (s : String) : Prop :=
  s ∉ options.«include» ∧ s ∉ options.«exclude» ∧ output_file ≠ s ∧
    options.input_dir ≠ some s

instance (options : DotnetOutdatedOptions) (output_file s : String) :
    Decidable (avoids options output_file s) := by
  unfold avoids
  infer_instance

/-- C4: the argument vector contains exactly one occurrence of the
include flag per entry of the include list, each immediately followed by
that entry, in the original order; likewise for the exclude flag and the
exclude list. The non-collision hypotheses rule out the flag string itself
being supplied as user data, so that flag occurrences are exactly string
occurrences. -/
theorem c4_include_exclude_pairing (o : DotnetOutdatedOptions) (f : String)
    (hinc : avoids o f "--include") (hexc : avoids o f "--exclude") :
    countOcc "--include" (buildArgs o f) = o.«include».length ∧
    flagValues "--include" (buildArgs o f) = o.«include» ∧
    countOcc "--exclude" (buildArgs o f) = o.«exclude».length ∧
    flagValues "--exclude" (buildArgs o f) = o.«exclude» := by
  obtain ⟨hi1, hi2, hi3, hi4⟩ := hinc
  obtain ⟨he1, he2, he3, he4⟩ := hexc
  have nbI : ("--include" : String) ∉
      ["outdated", "--fail-on-updates", "--output", f, "--output-format", "json"] := by
    simp [hi3.symm]
  have nbE : ("--exclude" : String) ∉
      ["outdated", "--fail-on-updates", "--output", f, "--output-format", "json"] := by
    simp [he3.symm]
  have nBI : ("--include" : String) ∉
      (if o.include_auto_references then ["--include-auto-references"] else []) := by
    cases o.include_auto_references <;> simp
  have nBE : ("--exclude" : String) ∉
      (if o.include_auto_references then ["--include-auto-references"] else []) := by
    cases o.include_auto_references <;> simp
  have nCI : ("--include" : String) ∉ ["--pre-release", o.pre_release.display] := by
    simp [(pre_release_display_ne_flag o.pre_release "--include" (by decide)).symm]
  have nCE : ("--exclude" : String) ∉ ["--pre-release", o.pre_release.display] := by
    simp [(pre_release_display_ne_flag o.pre_release "--exclude" (by decide)).symm]
  have nDE : ("--exclude" : String) ∉ pairArgs "--include" o.«include» :=
    not_mem_pairArgs _ _ _ (by simp) he1
  have nEI : ("--include" : String) ∉ pairArgs "--exclude" o.«exclude» :=
    not_mem_pairArgs _ _ _ (by simp) hi2
  have nFI : ("--include" : String) ∉ (if o.transitive then
      ["--transitive", "--transitive-depth", natDecimal o.transitive_depth] else []) := by
    cases o.transitive <;>
      simp [(natDecimal_ne_flag o.transitive_depth "--include" (by decide)).symm]
  have nFE : ("--exclude" : String) ∉ (if o.transitive then
      ["--transitive", "--transitive-depth", natDecimal o.transitive_depth] else []) := by
    cases o.transitive <;>
      simp [(natDecimal_ne_flag o.transitive_depth "--exclude" (by decide)).symm]
  have nGI : ("--include" : String) ∉ ["--version-lock", o.version_lock.display] := by
    simp [(version_lock_display_ne_flag o.version_lock "--include" (by decide)).symm]
  have nGE : ("--exclude" : String) ∉ ["--version-lock", o.version_lock.display] := by
    simp [(version_lock_display_ne_flag o.version_lock "--exclude" (by decide)).symm]
  have nHI : ("--include" : String) ∉
      (match o.input_dir with | some d => [d] | none => []) := by
    cases hd : o.input_dir with
    | none => simp
    | some d =>
      simp only [List.mem_singleton]
      intro he
      exact hi4 (by rw [hd, he])
  have nHE : ("--exclude" : String) ∉
      (match o.input_dir with | some d => [d] | none => []) := by
    cases hd : o.input_dir with
    | none => simp
    | some d =>
      simp only [List.mem_singleton]
      intro he
      exact he4 (by rw [hd, he])
  rw [buildArgs_eq]
  refine ⟨?_, ?_, ?_, ?_⟩
  · simp only [countOcc_append]
    rw [countOcc_eq_zero _ _ nbI, countOcc_eq_zero _ _ nBI, countOcc_eq_zero _ _ nCI,
      countOcc_pairArgs_self _ _ hi1, countOcc_eq_zero _ _ nEI, countOcc_eq_zero _ _ nFI,
      countOcc_eq_zero _ _ nGI, countOcc_eq_zero _ _ nHI]
    omega
  · simp only [List.append_assoc]
    rw [flagValues_append_of_not_mem _ _ _ nbI, flagValues_append_of_not_mem _ _ _ nBI,
      flagValues_append_of_not_mem _ _ _ nCI, flagValues_pairArgs,
      flagValues_append_of_not_mem _ _ _ nEI, flagValues_append_of_not_mem _ _ _ nFI,
      flagValues_append_of_not_mem _ _ _ nGI, flagValues_eq_nil_of_not_mem _ _ nHI]
    simp
  · simp only [countOcc_append]
    rw [countOcc_eq_zero _ _ nbE, countOcc_eq_zero _ _ nBE, countOcc_eq_zero _ _ nCE,
      countOcc_eq_zero _ _ nDE, countOcc_pairArgs_self _ _ he2, countOcc_eq_zero _ _ nFE,
      countOcc_eq_zero _ _ nGE, countOcc_eq_zero _ _ nHE]
    omega
  · simp only [List.append_assoc]
    rw [flagValues_append_of_not_mem _ _ _ nbE, flagValues_append_of_not_mem _ _ _ nBE,
      flagValues_append_of_not_mem _ _ _ nCE, flagValues_append_of_not_mem _ _ _ nDE,
      flagValues_pairArgs, flagValues_append_of_not_mem _ _ _ nFE,
      flagValues_append_of_not_mem _ _ _ nGE, flagValues_eq_nil_of_not_mem _ _ nHE]
    simp

/-- C4 witness: at concrete options with two include entries and one exclude
entry, the theorem applies and its hypotheses hold. -/
theorem c4_witness :
    countOcc "--include"
        (buildArgs ⟨false, PreRelease.Auto, ["A", "B"], ["C"], false, 1,
          VersionLock.None, none⟩ "tmp") = 2 ∧
    flagValues "--include"
        (buildArgs ⟨false, PreRelease.Auto, ["A", "B"], ["C"], false, 1,
          VersionLock.None, none⟩ "tmp") = ["A", "B"] ∧
    countOcc "--exclude"
        (buildArgs ⟨false, PreRelease.Auto, ["A", "B"], ["C"], false, 1,
          VersionLock.None, none⟩ "tmp") = 1 ∧
    flagValues "--exclude"
        (buildArgs ⟨false, PreRelease.Auto, ["A", "B"], ["C"], false, 1,
          VersionLock.None, none⟩ "tmp") = ["C"] :=
  c4_include_exclude_pairing
    ⟨false, PreRelease.Auto, ["A", "B"], ["C"], false, 1, VersionLock.None, none⟩
    "tmp" (by decide) (by decide)

/-- C5: the transitive flag and the transitive-depth flag (followed by the
decimal rendering of `transitive_depth`) appear in the argument vector
exactly when `options.transitive` is true — each appears iff the other
does, never one without the other. The non-collision hypotheses rule out
the flag strings being supplied as user data. -/
theorem c5_transitive_pairing (o : DotnetOutdatedOptions) (f : String)
    (ht : avoids o f "--transitive") (htd : avoids o f "--transitive-depth") :
    (("--transitive" : String) ∈ buildArgs o f ↔ o.transitive = true) ∧
    (("--transitive-depth" : String) ∈ buildArgs o f ↔ o.transitive = true) ∧
    (("--transitive" : String) ∈ buildArgs o f ↔
      ("--transitive-depth" : String) ∈ buildArgs o f) ∧
    flagValues "--transitive-depth" (buildArgs o f) =
      (if o.transitive then [natDecimal o.transitive_depth] else []) := by
  obtain ⟨ht1, ht2, ht3, ht4⟩ := ht
  obtain ⟨hd1, hd2, hd3, hd4⟩ := htd
  have nbT : ("--transitive" : String) ∉
      ["outdated", "--fail-on-updates", "--output", f, "--output-format", "json"] := by
    simp [ht3.symm]
  have nbD : ("--transitive-depth" : String) ∉
      ["outdated", "--fail-on-updates", "--output", f, "--output-format", "json"] := by
    simp [hd3.symm]
  have nBT : ("--transitive" : String) ∉
      (if o.include_auto_references then ["--include-auto-references"] else []) := by
    cases o.include_auto_references <;> simp
  have nBD : ("--transitive-depth" : String) ∉
      (if o.include_auto_references then ["--include-auto-references"] else []) := by
    cases o.include_auto_references <;> simp
  have nCT : ("--transitive" : String) ∉ ["--pre-release", o.pre_release.display] := by
    simp [(pre_release_display_ne_flag o.pre_release "--transitive" (by decide)).symm]
  have nCD : ("--transitive-depth" : String) ∉ ["--pre-release", o.pre_release.display] := by
    simp [(pre_release_display_ne_flag o.pre_release "--transitive-depth" (by decide)).symm]
  have nDT : ("--transitive" : String) ∉ pairArgs "--include" o.«include» :=
    not_mem_pairArgs _ _ _ (by simp) ht1
  have nDD : ("--transitive-depth" : String) ∉ pairArgs "--include" o.«include» :=
    not_mem_pairArgs _ _ _ (by simp) hd1
  have nET : ("--transitive" : String) ∉ pairArgs "--exclude" o.«exclude» :=
    not_mem_pairArgs _ _ _ (by simp) ht2
  have nED : ("--transitive-depth" : String) ∉ pairArgs "--exclude" o.«exclude» :=
    not_mem_pairArgs _ _ _ (by simp) hd2
  have nGT : ("--transitive" : String) ∉ ["--version-lock", o.version_lock.display] := by
    simp [(version_lock_display_ne_flag o.version_lock "--transitive" (by decide)).symm]
  have nGD : ("--transitive-depth" : String) ∉ ["--version-lock", o.version_lock.display] := by
    simp [(version_lock_display_ne_flag o.version_lock "--transitive-depth" (by decide)).symm]
  have nHT : ("--transitive" : String) ∉
      (match o.input_dir with | some d => [d] | none => []) := by
    cases hd : o.input_dir with
    | none => simp
    | some d =>
      simp only [List.mem_singleton]
      intro he
      exact ht4 (by rw [hd, he])
  have nHD : ("--transitive-depth" : String) ∉
      (match o.input_dir with | some d => [d] | none => []) := by
    cases hd : o.input_dir with
    | none => simp
    | some d =>
      simp only [List.mem_singleton]
      intro he
      exact hd4 (by rw [hd, he])
  have memT : (("--transitive" : String) ∈ buildArgs o f ↔ o.transitive = true) := by
    rw [buildArgs_eq]
    simp only [List.mem_append]
    cases htr : o.transitive <;>
      simp [nbT, nBT, nCT, nDT, nET, nGT, nHT]
  have memD : (("--transitive-depth" : String) ∈ buildArgs o f ↔ o.transitive = true) := by
    rw [buildArgs_eq]
    simp only [List.mem_append]
    cases htr : o.transitive <;>
      simp [nbD, nBD, nCD, nDD, nED, nGD, nHD]
  refine ⟨memT, memD, memT.trans memD.symm, ?_⟩
  rw [buildArgs_eq]
  simp only [List.append_assoc]
  rw [flagValues_append_of_not_mem _ _ _ nbD, flagValues_append_of_not_mem _ _ _ nBD,
    flagValues_append_of_not_mem _ _ _ nCD, flagValues_append_of_not_mem _ _ _ nDD,
    flagValues_append_of_not_mem _ _ _ nED]
  cases htr : o.transitive
  · rw [if_neg (by simp), if_neg (by simp)]
    rw [List.nil_append, flagValues_append_of_not_mem _ _ _ nGD,
      flagValues_eq_nil_of_not_mem _ _ nHD]
  · rw [if_pos (by simp), if_pos (by simp)]
    simp only [List.cons_append, List.nil_append]
    rw [flagValues_cons_ne _ _ _ (by decide), flagValues_cons_self,
      flagValues_cons_ne _ _ _ (by decide),
      flagValues_cons_ne _ _ _
        (version_lock_display_ne_flag o.version_lock "--transitive-depth" (by decide)),
      flagValues_eq_nil_of_not_mem _ _ nHD]

/-- C5 witness: at concrete options with `transitive = true` and depth `3`,
the theorem applies and its hypotheses hold. -/
theorem c5_witness :
    (("--transitive" : String) ∈
        buildArgs ⟨false, PreRelease.Auto, [], [], true, 3, VersionLock.None, none⟩ "tmp" ↔
      (⟨false, PreRelease.Auto, [], [], true, 3, VersionLock.None,
        none⟩ : DotnetOutdatedOptions).transitive = true) ∧
    (("--transitive-depth" : String) ∈
        buildArgs ⟨false, PreRelease.Auto, [], [], true, 3, VersionLock.None, none⟩ "tmp" ↔
      (⟨false, PreRelease.Auto, [], [], true, 3, VersionLock.None,
        none⟩ : DotnetOutdatedOptions).transitive = true) ∧
    (("--transitive" : String) ∈
        buildArgs ⟨false, PreRelease.Auto, [], [], true, 3, VersionLock.None, none⟩ "tmp" ↔
      ("--transitive-depth" : String) ∈
        buildArgs ⟨false, PreRelease.Auto, [], [], true, 3, VersionLock.None, none⟩ "tmp") ∧
    flagValues "--transitive-depth"
        (buildArgs ⟨false, PreRelease.Auto, [], [], true, 3, VersionLock.None, none⟩ "tmp") =
      (if (⟨false, PreRelease.Auto, [], [], true, 3, VersionLock.None,
        none⟩ : DotnetOutdatedOptions).transitive then [natDecimal 3] else []) :=
  c5_transitive_pairing
    ⟨false, PreRelease.Auto, [], [], true, 3, VersionLock.None, none⟩ "tmp"
    (by decide) (by decide)

/-- C6: the argument vector contains exactly one pre-release flag, paired
with the rendering of the selected `PreRelease` variant (one of `Never`,
`Auto`, `Always`), and exactly one version-lock flag, paired with the
rendering of the selected `VersionLock` variant (one of `None`, `Major`,
`Minor`). The non-collision hypotheses rule out the flag strings being
supplied as user data. -/
theorem c6_prerelease_versionlock (o : DotnetOutdatedOptions) (f : String)
    (hpr : avoids o f "--pre-release") (hvl : avoids o f "--version-lock") :
    countOcc "--pre-release" (buildArgs o f) = 1 ∧
    flagValues "--pre-release" (buildArgs o f) = [o.pre_release.display] ∧
    (o.pre_release.display = "Never" ∨ o.pre_release.display = "Auto" ∨
      o.pre_release.display = "Always") ∧
    countOcc "--version-lock" (buildArgs o f) = 1 ∧
    flagValues "--version-lock" (buildArgs o f) = [o.version_lock.display] ∧
    (o.version_lock.display = "None" ∨ o.version_lock.display = "Major" ∨
      o.version_lock.display = "Minor") := by
  obtain ⟨hp1, hp2, hp3, hp4⟩ := hpr
  obtain ⟨hv1, hv2, hv3, hv4⟩ := hvl
  have nbP : ("--pre-release" : String) ∉
      ["outdated", "--fail-on-updates", "--output", f, "--output-format", "json"] := by
    simp [hp3.symm]
  have nbV : ("--version-lock" : String) ∉
      ["outdated", "--fail-on-updates", "--output", f, "--output-format", "json"] := by
    simp [hv3.symm]
  have nBP : ("--pre-release" : String) ∉
      (if o.include_auto_references then ["--include-auto-references"] else []) := by
    cases o.include_auto_references <;> simp
  have nBV : ("--version-lock" : String) ∉
      (if o.include_auto_references then ["--include-auto-references"] else []) := by
    cases o.include_auto_references <;> simp
  have nCV : ("--version-lock" : String) ∉ ["--pre-release", o.pre_release.display] := by
    simp [(pre_release_display_ne_flag o.pre_release "--version-lock" (by decide)).symm]
  have nDP : ("--pre-release" : String) ∉ pairArgs "--include" o.«include» :=
    not_mem_pairArgs _ _ _ (by simp) hp1
  have nDV : ("--version-lock" : String) ∉ pairArgs "--include" o.«include» :=
    not_mem_pairArgs _ _ _ (by simp) hv1
  have nEP : ("--pre-release" : String) ∉ pairArgs "--exclude" o.«exclude» :=
    not_mem_pairArgs _ _ _ (by simp) hp2
  have nEV : ("--version-lock" : String) ∉ pairArgs "--exclude" o.«exclude» :=
    not_mem_pairArgs _ _ _ (by simp) hv2
  have nFP : ("--pre-release" : String) ∉ (if o.transitive then
      ["--transitive", "--transitive-depth", natDecimal o.transitive_depth] else []) := by
    cases o.transitive <;>
      simp [(natDecimal_ne_flag o.transitive_depth "--pre-release" (by decide)).symm]
  have nFV : ("--version-lock" : String) ∉ (if o.transitive then
      ["--transitive", "--transitive-depth", natDecimal o.transitive_depth] else []) := by
    cases o.transitive <;>
      simp [(natDecimal_ne_flag o.transitive_depth "--version-lock" (by decide)).symm]
  have nGP : ("--pre-release" : String) ∉ ["--version-lock", o.version_lock.display] := by
    simp [(version_lock_display_ne_flag o.version_lock "--pre-release" (by decide)).symm]
  have nHP : ("--pre-release" : String) ∉
      (match o.input_dir with | some d => [d] | none => []) := by
    cases hd : o.input_dir with
    | none => simp
    | some d =>
      simp only [List.mem_singleton]
      intro he
      exact hp4 (by rw [hd, he])
  have nHV : ("--version-lock" : String) ∉
      (match o.input_dir with | some d => [d] | none => []) := by
    cases hd : o.input_dir with
    | none => simp
    | some d =>
      simp only [List.mem_singleton]
      intro he
      exact hv4 (by rw [hd, he])
  have hPd : o.pre_release.display ≠ "--pre-release" :=
    pre_release_display_ne_flag o.pre_release "--pre-release" (by decide)
  have hVd : o.version_lock.display ≠ "--version-lock" :=
    version_lock_display_ne_flag o.version_lock "--version-lock" (by decide)
  refine ⟨?_, ?_, pre_release_display_cases o.pre_release, ?_, ?_,
    version_lock_display_cases o.version_lock⟩
  · rw [buildArgs_eq]
    simp only [countOcc_append]
    rw [countOcc_eq_zero _ _ nbP, countOcc_eq_zero _ _ nBP,
      countOcc_eq_zero _ _ nDP, countOcc_eq_zero _ _ nEP, countOcc_eq_zero _ _ nFP,
      countOcc_eq_zero _ _ nGP, countOcc_eq_zero _ _ nHP]
    simp [countOcc, hPd]
  · rw [buildArgs_eq]
    simp only [List.append_assoc]
    rw [flagValues_append_of_not_mem _ _ _ nbP, flagValues_append_of_not_mem _ _ _ nBP]
    simp only [List.cons_append, List.nil_append]
    rw [flagValues_cons_self]
    rw [flagValues_append_of_not_mem _ _ _ nDP, flagValues_append_of_not_mem _ _ _ nEP,
      flagValues_append_of_not_mem _ _ _ nFP, flagValues_cons_ne _ _ _ (by decide),
      flagValues_cons_ne _ _ _
        (version_lock_display_ne_flag o.version_lock "--pre-release" (by decide)),
      flagValues_eq_nil_of_not_mem _ _ nHP]
  · rw [buildArgs_eq]
    simp only [countOcc_append]
    rw [countOcc_eq_zero _ _ nbV, countOcc_eq_zero _ _ nBV, countOcc_eq_zero _ _ nCV,
      countOcc_eq_zero _ _ nDV, countOcc_eq_zero _ _ nEV, countOcc_eq_zero _ _ nFV,
      countOcc_eq_zero _ _ nHV]
    simp [countOcc, hVd]
  · rw [buildArgs_eq]
    simp only [List.append_assoc]
    rw [flagValues_append_of_not_mem _ _ _ nbV, flagValues_append_of_not_mem _ _ _ nBV,
      flagValues_append_of_not_mem _ _ _ nCV, flagValues_append_of_not_mem _ _ _ nDV,
      flagValues_append_of_not_mem _ _ _ nEV, flagValues_append_of_not_mem _ _ _ nFV]
    simp only [List.cons_append, List.nil_append]
    rw [flagValues_cons_self]
    rw [flagValues_eq_nil_of_not_mem _ _ nHV]

/-- C6 witness: at concrete options with `pre_release = Always` and
`version_lock = Minor`, the theorem applies and its hypotheses hold. -/
theorem c6_witness :
    countOcc "--pre-release"
        (buildArgs ⟨true, PreRelease.Always, ["X"], [], true, 2, VersionLock.Minor,
          some "dir"⟩ "tmp") = 1 ∧
    flagValues "--pre-release"
        (buildArgs ⟨true, PreRelease.Always, ["X"], [], true, 2, VersionLock.Minor,
          some "dir"⟩ "tmp") = [PreRelease.Always.display] ∧
    (PreRelease.Always.display = "Never" ∨ PreRelease.Always.display = "Auto" ∨
      PreRelease.Always.display = "Always") ∧
    countOcc "--version-lock"
        (buildArgs ⟨true, PreRelease.Always, ["X"], [], true, 2, VersionLock.Minor,
          some "dir"⟩ "tmp") = 1 ∧
    flagValues "--version-lock"
        (buildArgs ⟨true, PreRelease.Always, ["X"], [], true, 2, VersionLock.Minor,
          some "dir"⟩ "tmp") = [VersionLock.Minor.display] ∧
    (VersionLock.Minor.display = "None" ∨ VersionLock.Minor.display = "Major" ∨
      VersionLock.Minor.display = "Minor") :=
  c6_prerelease_versionlock
    ⟨true, PreRelease.Always, ["X"], [], true, 2, VersionLock.Minor, some "dir"⟩ "tmp"
    (by decide) (by decide)

/-- An empty report: the JSON tree `Projects: []`, as the external tool
writes it when nothing is outdated. -/
def emptyReportJson : Json := Json.obj [("Projects", Json.arr [])]

/-- C1: whenever `outdated` returns a verdict at all, that verdict is
`UpToDate` exactly when the external tool's exit status was success and
`UpdateRequired` exactly when it was not, for every report content the
report reader returns (in particular for an empty project list). -/
theorem c1_verdict_iff_exit_success (options : DotnetOutdatedOptions) (ofile : String)
    (run : List String → ProcessOutput) (read_report : String → Except String Json)
    (r : IndicatedUpdateRequirement) (d : DotnetOutdatedData)
    (h : outdated options (Except.ok (some ofile)) run read_report = Except.ok (r, d)) :
    (r = IndicatedUpdateRequirement.UpToDate ↔
      (run (buildArgs options ofile)).success = true) ∧
    (r = IndicatedUpdateRequirement.UpdateRequired ↔
      (run (buildArgs options ofile)).success = false) := by
  have key : r = (if (run (buildArgs options ofile)).success then
      IndicatedUpdateRequirement.UpToDate else IndicatedUpdateRequirement.UpdateRequired) := by
    unfold outdated at h
    cases hs : (run (buildArgs options ofile)).success <;> simp only [hs] at h
    all_goals (repeat' split at h)
    all_goals simp_all
  rw [key]
  cases hs : (run (buildArgs options ofile)).success <;> simp [hs]

/-- C1 witness: a successful run over an empty report yields `UpToDate`. -/
theorem c1_witness :
    (IndicatedUpdateRequirement.UpToDate = IndicatedUpdateRequirement.UpToDate ↔
      ((fun _ => (⟨true, [], []⟩ : ProcessOutput))
        (buildArgs DotnetOutdatedOptions.default "tmp")).success = true) ∧
    (IndicatedUpdateRequirement.UpToDate = IndicatedUpdateRequirement.UpdateRequired ↔
      ((fun _ => (⟨true, [], []⟩ : ProcessOutput))
        (buildArgs DotnetOutdatedOptions.default "tmp")).success = false) :=
  c1_verdict_iff_exit_success DotnetOutdatedOptions.default "tmp"
    (fun _ => ⟨true, [], []⟩) (fun _ => Except.ok emptyReportJson)
    IndicatedUpdateRequirement.UpToDate ⟨[]⟩ rfl

/-- C9 (counterexample): when the exit status is success, the captured byte
streams are never decoded, so a stdout that is not valid UTF-8 (here the
single byte 255) does not cause any error: the call still returns `Ok`.
Malformed captured output is silently dropped on the success path. -/
theorem c9_counterexample :
    validUtf8 [255] = false ∧
    outdated DotnetOutdatedOptions.default (Except.ok (some "tmp"))
        (fun _ => ⟨true, [255], []⟩) (fun _ => Except.ok emptyReportJson) =
      Except.ok (IndicatedUpdateRequirement.UpToDate, ⟨[]⟩) :=
  ⟨rfl, rfl⟩

/-- C9 (amended): when the exit status is not success, a failure to decode
the captured stdout — or the captured stderr when stderr is non-empty —
propagates from `outdated` as a UTF-8 error; when the exit status is
success the captured streams are not decoded at all. -/
theorem c9_utf8_error_propagation (options : DotnetOutdatedOptions) (ofile : String)
    (run : List String → ProcessOutput) (read_report : String → Except String Json)
    (hfail : (run (buildArgs options ofile)).success = false)
    (hbad : validUtf8 (run (buildArgs options ofile)).stdout = false ∨
      ((run (buildArgs options ofile)).stderr ≠ [] ∧
        validUtf8 (run (buildArgs options ofile)).stderr = false)) :
    outdated options (Except.ok (some ofile)) run read_report =
      Except.error Error.utf8Error := by
  unfold outdated
  simp only [hfail]
  cases hout : validUtf8 (run (buildArgs options ofile)).stdout
  · simp [hout]
  · rcases hbad with hb | ⟨hne, hb⟩
    · rw [hout] at hb
      exact absurd hb (by simp)
    · simp [hout, hne, hb]

/-- C9 witness: a failing run whose stdout is the invalid byte 255
propagates the UTF-8 decoding failure as an error. -/
theorem c9_witness :
    outdated DotnetOutdatedOptions.default (Except.ok (some "tmp"))
        (fun _ => ⟨false, [255], []⟩) (fun _ => Except.ok emptyReportJson) =
      Except.error Error.utf8Error :=
  c9_utf8_error_propagation DotnetOutdatedOptions.default "tmp"
    (fun _ => ⟨false, [255], []⟩) (fun _ => Except.ok emptyReportJson)
    rfl (Or.inl rfl)

theorem severity_roundtrip (p : List PathSeg) (sv : Severity) :
    Severity.deserialize p (Severity.serialize sv) = Except.ok sv := by
  cases sv <;> rfl

theorem dependency_roundtrip (p : List PathSeg) (dep : Dependency) :
    Dependency.deserialize p (Dependency.serialize dep) = Except.ok dep := by
  rcases dep with ⟨n, rv, lv, us⟩
  cases us <;> rfl

theorem dependency_list_roundtrip (p : List PathSeg) (i : Nat) (ds : List Dependency) :
    deserializeSeq Dependency.deserialize p i (ds.map Dependency.serialize) =
      Except.ok ds := by
  induction ds generalizing i with
  | nil => rfl
  | cons d rest ih => simp [deserializeSeq, dependency_roundtrip, ih]

theorem framework_roundtrip (p : List PathSeg) (fw : Framework) :
    Framework.deserialize p (Framework.serialize fw) = Except.ok fw := by
  rcases fw with ⟨n, deps⟩
  simp [Framework.serialize, Framework.deserialize, Framework.fieldLoop,
    dependency_list_roundtrip]

theorem framework_list_roundtrip (p : List PathSeg) (i : Nat) (fws : List Framework) :
    deserializeSeq Framework.deserialize p i (fws.map Framework.serialize) =
      Except.ok fws := by
  induction fws generalizing i with
  | nil => rfl
  | cons fw rest ih => simp [deserializeSeq, framework_roundtrip, ih]

theorem project_roundtrip (p : List PathSeg) (pr : Project) :
    Project.deserialize p (Project.serialize pr) = Except.ok pr := by
  rcases pr with ⟨n, fp, tfs⟩
  simp [Project.serialize, Project.deserialize, Project.fieldLoop,
    framework_list_roundtrip]

theorem project_list_roundtrip (p : List PathSeg) (i : Nat) (prs : List Project) :
    deserializeSeq Project.deserialize p i (prs.map Project.serialize) =
      Except.ok prs := by
  induction prs generalizing i with
  | nil => rfl
  | cons pr rest ih => simp [deserializeSeq, project_roundtrip, ih]

/-- C8: serializing any value of the report model to the report JSON shape
and deserializing it back yields the original value, field for field, for
`DotnetOutdatedData` and for each of its component types `Project`,
`Framework`, `Dependency` and `Severity`. -/
theorem c8_serialize_deserialize_roundtrip :
    (∀ d : DotnetOutdatedData,
      DotnetOutdatedData.deserialize [] (DotnetOutdatedData.serialize d) = Except.ok d) ∧
    (∀ (p : List PathSeg) (pr : Project),
      Project.deserialize p (Project.serialize pr) = Except.ok pr) ∧
    (∀ (p : List PathSeg) (fw : Framework),
      Framework.deserialize p (Framework.serialize fw) = Except.ok fw) ∧
    (∀ (p : List PathSeg) (dep : Dependency),
      Dependency.deserialize p (Dependency.serialize dep) = Except.ok dep) ∧
    (∀ (p : List PathSeg) (sv : Severity),
      Severity.deserialize p (Severity.serialize sv) = Except.ok sv) := by
  refine ⟨?_, project_roundtrip, framework_roundtrip, dependency_roundtrip,
    severity_roundtrip⟩
  intro d
  rcases d with ⟨prs⟩
  simp [DotnetOutdatedData.serialize, DotnetOutdatedData.deserialize,
    DotnetOutdatedData.fieldLoop, project_list_roundtrip]

/-- A report with one project, one framework and one dependency whose
`UpgradeSeverity` field holds the string `sv`; all other fields are
well-formed strings. -/
def singleDependencyReport (nm fp fwn dn rv lv sv : String) : Json :=
  Json.obj [("Projects", Json.arr [
    Json.obj [("Name", Json.str nm), ("FilePath", Json.str fp),
      ("TargetFrameworks", Json.arr [
        Json.obj [("Name", Json.str fwn), ("Dependencies", Json.arr [
          Json.obj [("Name", Json.str dn), ("ResolvedVersion", Json.str rv),
            ("LatestVersion", Json.str lv), ("UpgradeSeverity", Json.str sv)]])]])]])]

/-- C7: a report whose dependency carries an `UpgradeSeverity` string outside
the three variants `Major`, `Minor`, `Patch` deserializes to an error whose
path names the offending `UpgradeSeverity` field (through
`Projects[0].TargetFrameworks[0].Dependencies[0]`); no default value is
substituted. -/
theorem c7_unknown_severity_path (nm fp fwn dn rv lv sv : String)
    (h1 : sv ≠ "Major") (h2 : sv ≠ "Minor") (h3 : sv ≠ "Patch") :
    DotnetOutdatedData.deserialize [] (singleDependencyReport nm fp fwn dn rv lv sv) =
      Except.error
        ⟨[PathSeg.field "Projects", PathSeg.index 0, PathSeg.field "TargetFrameworks",
          PathSeg.index 0, PathSeg.field "Dependencies", PathSeg.index 0,
          PathSeg.field "UpgradeSeverity"], "unknown variant " ++ sv⟩ := by
  simp [singleDependencyReport, DotnetOutdatedData.deserialize,
    DotnetOutdatedData.fieldLoop, deserializeSeq, Project.deserialize, Project.fieldLoop,
    Framework.deserialize, Framework.fieldLoop, Dependency.deserialize,
    Dependency.fieldLoop, Severity.deserialize, h1, h2, h3]

/-- C7 witness: the severity string Mega is outside the three variants and
produces the path-annotated error. -/
theorem c7_witness :
    DotnetOutdatedData.deserialize []
        (singleDependencyReport "P" "P.csproj" "net6.0" "Foo" "1.0.0" "2.0.0" "Mega") =
      Except.error
        ⟨[PathSeg.field "Projects", PathSeg.index 0, PathSeg.field "TargetFrameworks",
          PathSeg.index 0, PathSeg.field "Dependencies", PathSeg.index 0,
          PathSeg.field "UpgradeSeverity"], "unknown variant " ++ "Mega"⟩ :=
  c7_unknown_severity_path "P" "P.csproj" "net6.0" "Foo" "1.0.0" "2.0.0" "Mega"
    (by decide) (by decide) (by decide)

theorem dep_loop_missing_name (p : List PathSeg) :
    ∀ fs a2 a3 a4, lookupField fs "Name" = none →
      isErr (Dependency.fieldLoop p fs none a2 a3 a4) = true := by
  intro fs
  induction fs with
  | nil => intro a2 a3 a4 h; cases a2 <;> cases a3 <;> cases a4 <;> rfl
  | cons kv rest ih =>
    intro a2 a3 a4 h
    obtain ⟨k, v⟩ := kv
    by_cases hk : k = "Name"
    · rw [lookupField, if_pos hk] at h
      exact absurd h (by simp)
    · rw [lookupField, if_neg hk] at h
      simp only [Dependency.fieldLoop, if_neg hk]
      repeat' split
      all_goals first | rfl | exact ih _ _ _ h

theorem dep_loop_missing_rv (p : List PathSeg) :
    ∀ fs a1 a3 a4, lookupField fs "ResolvedVersion" = none →
      isErr (Dependency.fieldLoop p fs a1 none a3 a4) = true := by
  intro fs
  induction fs with
  | nil => intro a1 a3 a4 h; cases a1 <;> cases a3 <;> cases a4 <;> rfl
  | cons kv rest ih =>
    intro a1 a3 a4 h
    obtain ⟨k, v⟩ := kv
    by_cases hk : k = "ResolvedVersion"
    · rw [lookupField, if_pos hk] at h
      exact absurd h (by simp)
    · rw [lookupField, if_neg hk] at h
      simp only [Dependency.fieldLoop, if_neg hk]
      repeat' split
      all_goals first | rfl | exact ih _ _ _ h

theorem dep_loop_missing_lv (p : List PathSeg) :
    ∀ fs a1 a2 a4, lookupField fs "LatestVersion" = none →
      isErr (Dependency.fieldLoop p fs a1 a2 none a4) = true := by
  intro fs
  induction fs with
  | nil => intro a1 a2 a4 h; cases a1 <;> cases a2 <;> cases a4 <;> rfl
  | cons kv rest ih =>
    intro a1 a2 a4 h
    obtain ⟨k, v⟩ := kv
    by_cases hk : k = "LatestVersion"
    · rw [lookupField, if_pos hk] at h
      exact absurd h (by simp)
    · rw [lookupField, if_neg hk] at h
      simp only [Dependency.fieldLoop, if_neg hk]
      repeat' split
      all_goals first | rfl | exact ih _ _ _ h

theorem dep_loop_missing_us (p : List PathSeg) :
    ∀ fs a1 a2 a3, lookupField fs "UpgradeSeverity" = none →
      isErr (Dependency.fieldLoop p fs a1 a2 a3 none) = true := by
  intro fs
  induction fs with
  | nil => intro a1 a2 a3 h; cases a1 <;> cases a2 <;> cases a3 <;> rfl
  | cons kv rest ih =>
    intro a1 a2 a3 h
    obtain ⟨k, v⟩ := kv
    by_cases hk : k = "UpgradeSeverity"
    · rw [lookupField, if_pos hk] at h
      exact absurd h (by simp)
    · rw [lookupField, if_neg hk] at h
      simp only [Dependency.fieldLoop, if_neg hk]
      repeat' split
      all_goals first | rfl | exact ih _ _ _ h

theorem fw_loop_missing_name (p : List PathSeg) :
    ∀ fs a2, lookupField fs "Name" = none →
      isErr (Framework.fieldLoop p fs none a2) = true := by
  intro fs
  induction fs with
  | nil => intro a2 h; cases a2 <;> rfl
  | cons kv rest ih =>
    intro a2 h
    obtain ⟨k, v⟩ := kv
    by_cases hk : k = "Name"
    · rw [lookupField, if_pos hk] at h
      exact absurd h (by simp)
    · rw [lookupField, if_neg hk] at h
      simp only [Framework.fieldLoop, if_neg hk]
      repeat' split
      all_goals first | rfl | exact ih _ h

theorem fw_loop_missing_deps (p : List PathSeg) :
    ∀ fs a1, lookupField fs "Dependencies" = none →
      isErr (Framework.fieldLoop p fs a1 none) = true := by
  intro fs
  induction fs with
  | nil => intro a1 h; cases a1 <;> rfl
  | cons kv rest ih =>
    intro a1 h
    obtain ⟨k, v⟩ := kv
    by_cases hk : k = "Dependencies"
    · rw [lookupField, if_pos hk] at h
      exact absurd h (by simp)
    · rw [lookupField, if_neg hk] at h
      simp only [Framework.fieldLoop, if_neg hk]
      repeat' split
      all_goals first | rfl | exact ih _ h

theorem proj_loop_missing_name (p : List PathSeg) :
    ∀ fs a2 a3, lookupField fs "Name" = none →
      isErr (Project.fieldLoop p fs none a2 a3) = true := by
  intro fs
  induction fs with
  | nil => intro a2 a3 h; cases a2 <;> cases a3 <;> rfl
  | cons kv rest ih =>
    intro a2 a3 h
    obtain ⟨k, v⟩ := kv
    by_cases hk : k = "Name"
    · rw [lookupField, if_pos hk] at h
      exact absurd h (by simp)
    · rw [lookupField, if_neg hk] at h
      simp only [Project.fieldLoop, if_neg hk]
      repeat' split
      all_goals first | rfl | exact ih _ _ h

theorem proj_loop_missing_fp (p : List PathSeg) :
    ∀ fs a1 a3, lookupField fs "FilePath" = none →
      isErr (Project.fieldLoop p fs a1 none a3) = true := by
  intro fs
  induction fs with
  | nil => intro a1 a3 h; cases a1 <;> cases a3 <;> rfl
  | cons kv rest ih =>
    intro a1 a3 h
    obtain ⟨k, v⟩ := kv
    by_cases hk : k = "FilePath"
    · rw [lookupField, if_pos hk] at h
      exact absurd h (by simp)
    · rw [lookupField, if_neg hk] at h
      simp only [Project.fieldLoop, if_neg hk]
      repeat' split
      all_goals first | rfl | exact ih _ _ h

theorem proj_loop_missing_tfs (p : List PathSeg) :
    ∀ fs a1 a2, lookupField fs "TargetFrameworks" = none →
      isErr (Project.fieldLoop p fs a1 a2 none) = true := by
  intro fs
  induction fs with
  | nil => intro a1 a2 h; cases a1 <;> cases a2 <;> rfl
  | cons kv rest ih =>
    intro a1 a2 h
    obtain ⟨k, v⟩ := kv
    by_cases hk : k = "TargetFrameworks"
    · rw [lookupField, if_pos hk] at h
      exact absurd h (by simp)
    · rw [lookupField, if_neg hk] at h
      simp only [Project.fieldLoop, if_neg hk]
      repeat' split
      all_goals first | rfl | exact ih _ _ h

theorem data_loop_missing_projects (p : List PathSeg) :
    ∀ fs, lookupField fs "Projects" = none →
      isErr (DotnetOutdatedData.fieldLoop p fs none) = true := by
  intro fs
  induction fs with
  | nil => intro h; rfl
  | cons kv rest ih =>
    intro h
    obtain ⟨k, v⟩ := kv
    by_cases hk : k = "Projects"
    · rw [lookupField, if_pos hk] at h
      exact absurd h (by simp)
    · rw [lookupField, if_neg hk] at h
      simp only [DotnetOutdatedData.fieldLoop, if_neg hk]
      exact ih h

/-- C10: a report object that omits a required field deserializes to an
error, never to a value with a default filled in: omitting `Projects` on
the root, `Name`, `FilePath` or `TargetFrameworks` on a project, `Name` or
`Dependencies` on a framework, or `Name`, `ResolvedVersion`,
`LatestVersion` or `UpgradeSeverity` on a dependency each forces an error
from the corresponding deserializer, whatever else the object contains. -/
theorem c10_missing_required_fields :
    (∀ fs, lookupField fs "Projects" = none →
      isErr (DotnetOutdatedData.deserialize [] (Json.obj fs)) = true) ∧
    (∀ p fs, lookupField fs "Name" = none →
      isErr (Project.deserialize p (Json.obj fs)) = true) ∧
    (∀ p fs, lookupField fs "FilePath" = none →
      isErr (Project.deserialize p (Json.obj fs)) = true) ∧
    (∀ p fs, lookupField fs "TargetFrameworks" = none →
      isErr (Project.deserialize p (Json.obj fs)) = true) ∧
    (∀ p fs, lookupField fs "Name" = none →
      isErr (Framework.deserialize p (Json.obj fs)) = true) ∧
    (∀ p fs, lookupField fs "Dependencies" = none →
      isErr (Framework.deserialize p (Json.obj fs)) = true) ∧
    (∀ p fs, lookupField fs "Name" = none →
      isErr (Dependency.deserialize p (Json.obj fs)) = true) ∧
    (∀ p fs, lookupField fs "ResolvedVersion" = none →
      isErr (Dependency.deserialize p (Json.obj fs)) = true) ∧
    (∀ p fs, lookupField fs "LatestVersion" = none →
      isErr (Dependency.deserialize p (Json.obj fs)) = true) ∧
    (∀ p fs, lookupField fs "UpgradeSeverity" = none →
      isErr (Dependency.deserialize p (Json.obj fs)) = true) :=
  ⟨fun fs h => data_loop_missing_projects [] fs h,
   fun p fs h => proj_loop_missing_name p fs none none h,
   fun p fs h => proj_loop_missing_fp p fs none none h,
   fun p fs h => proj_loop_missing_tfs p fs none none h,
   fun p fs h => fw_loop_missing_name p fs none h,
   fun p fs h => fw_loop_missing_deps p fs none h,
   fun p fs h => dep_loop_missing_name p fs none none none h,
   fun p fs h => dep_loop_missing_rv p fs none none none h,
   fun p fs h => dep_loop_missing_lv p fs none none none h,
   fun p fs h => dep_loop_missing_us p fs none none none h⟩

/-- C10 witness: the empty object omits every required field, and each
component deserializer rejects it. -/
theorem c10_witness :
    isErr (DotnetOutdatedData.deserialize [] (Json.obj [])) = true ∧
    isErr (Project.deserialize [] (Json.obj [])) = true ∧
    isErr (Framework.deserialize [] (Json.obj [])) = true ∧
    isErr (Dependency.deserialize [] (Json.obj [])) = true :=
  ⟨c10_missing_required_fields.1 [] rfl,
   c10_missing_required_fields.2.1 [] [] rfl,
   c10_missing_required_fields.2.2.2.2.1 [] [] rfl,
   c10_missing_required_fields.2.2.2.2.2.2.1 [] [] rfl⟩

end DotnetParser
